import Mathlib

/-!
Verification development for the cameleon GenICam register-description
engine and USB3 emulator memory layout.

The definitions below are shallow embeddings of:
  * `src/genapi/src/parser/struct_reg.rs` — the StructReg → MaskedIntReg
    expansion and the attribute-merge rules (`merge_impl`,
    `NodeElementBase::merge`, `StructEntryNode::into_masked_int_reg`,
    `StructRegNode::into_masked_int_regs`);
  * `src/genapi/src/lib.rs` — the `Device` trait, its blanket impl for
    `&mut T`, and the `GenApiError` enum;
  * `src/cameleon-device/src/usb3/emulator/emulator_impl/memory.rs` — the
    declared ABRM register layout of the USB3 emulator;
  * `src/cameleon-impl/tests/macros/register.rs` — the test register layout
    exercising the register-layout primitive.
The register-layout primitive itself (the `register` attribute macro) is not
part of the sources; its semantics (offset accumulation, size, preloaded
fragment, protection map) is modelled from the spec where noted.
-/

set_option autoImplicit false
set_option maxRecDepth 8192

/-- Node identifiers are interned strings; we model them as the strings
themselves (interning is idempotent, so this is faithful up to iso). -/
abbrev NodeId := String

/-- Translated from `elem_type::AccessMode` (RO | WO | RW). -/
inductive AccessMode where
  | RO
  | WO
  | RW
  deriving DecidableEq, Repr

/-- Translated from `elem_type::Visibility`; `Beginner` is the default. -/
inductive Visibility where
  | Beginner
  | Expert
  | Guru
  | Invisible
  deriving DecidableEq, Repr

/-- Translated from `elem_type::CachingMode`; `WriteThrough` is the default. -/
inductive CachingMode where
  | WriteThrough
  | WriteAround
  | NoCache
  deriving DecidableEq, Repr

/-- Translated from `elem_type::Endianness`; `LE` is the default. -/
inductive Endianness where
  | LE
  | BE
  deriving DecidableEq, Repr

/-- Translated from `elem_type::Sign`; `Unsigned` is the default. -/
inductive Sign where
  | Signed
  | Unsigned
  deriving DecidableEq, Repr

/-- Translated from `elem_type::IntegerRepresentation`; `PureNumber` is the
default. -/
inductive IntegerRepresentation where
  | Linear
  | Logarithmic
  | Boolean
  | PureNumber
  | HexNumber
  | IpV4Address
  | MacAddress
  deriving DecidableEq, Repr

/-- Translated from `elem_type::BitMask`: `SingleBit(pos)` or
`Range(lsb, msb)`. -/
inductive BitMask where
  | SingleBit (pos : Nat)
  | Range (lsb : Nat) (msb : Nat)
  deriving DecidableEq, Repr

/-- Translated from `node_base::NodeAttributeBase`; only the interned node
id is consumed by the StructReg expansion. -/
structure NodeAttributeBase where
  id : NodeId
  deriving DecidableEq, Repr

/-- Translated from `node_base::NodeElementBase`: the per-node optional
attributes merged by `NodeElementBase::merge` in `struct_reg.rs`. -/
structure NodeElementBase where
  tooltip : Option String
  description : Option String
  display_name : Option String
  visibility : Visibility
  docu_url : Option String
  is_deprecated : Bool
  event_id : Option String
  p_is_implemented : Option NodeId
  p_is_available : Option NodeId
  p_is_locked : Option NodeId
  p_block_polling : Option NodeId
  imposed_access_mode : AccessMode
  p_errors : List NodeId
  p_alias : Option NodeId
  p_cast_alias : Option NodeId
  deriving DecidableEq, Repr

/-- The all-defaults `NodeElementBase` (every option absent, `Beginner`
visibility, not deprecated, imposed access mode RW). -/
def NodeElementBase.default : NodeElementBase where
  tooltip := none
  description := none
  display_name := none
  visibility := Visibility.Beginner
  docu_url := none
  is_deprecated := false
  event_id := none
  p_is_implemented := none
  p_is_available := none
  p_is_locked := none
  p_block_polling := none
  imposed_access_mode := AccessMode.RW
  p_errors := []
  p_alias := none
  p_cast_alias := none

/-- Modelled from the spec: `register_base::RegisterBase` (the file is not
among the sources; the spec gives its fields as address, length, port,
access_mode, cacheable, polling_time, streamable, p_invalidators on top of
the element base). Address and length are carried as resolved u64 values. -/
structure RegisterBase where
  elem_base : NodeElementBase
  address : Nat
  reg_length : Nat
  p_port : NodeId
  access_mode : AccessMode
  cacheable : CachingMode
  polling_time : Option Nat
  streamable : Bool
  p_invalidators : List NodeId
  deriving DecidableEq, Repr

/-- Translated from `masked_int_reg::MaskedIntRegNode` as constructed in
`StructEntryNode::into_masked_int_reg`. -/
structure MaskedIntRegNode where
  attr_base : NodeAttributeBase
  register_base : RegisterBase
  bit_mask : BitMask
  sign : Sign
  endianness : Endianness
  unit : Option String
  representation : IntegerRepresentation
  p_selected : List NodeId
  deriving DecidableEq, Repr

/-- Translated from `struct_reg::StructEntryNode`. -/
structure StructEntryNode where
  attr_base : NodeAttributeBase
  elem_base : NodeElementBase
  p_invalidators : List NodeId
  access_mode : AccessMode
  cacheable : CachingMode
  polling_time : Option Nat
  streamable : Bool
  bit_mask : BitMask
  sign : Sign
  unit : Option String
  representation : IntegerRepresentation
  p_selected : List NodeId
  deriving DecidableEq, Repr

/-- Translated from `struct_reg::StructRegNode`. -/
structure StructRegNode where
  comment : String
  register_base : RegisterBase
  endianness : Endianness
  entries : List StructEntryNode
  deriving DecidableEq, Repr

/-- Modelled from the spec: the cache-store builder records, for each stored
register, the reverse invalidator index (invalidator id, invalidated id). -/
abbrev CacheBuilder := List (NodeId × NodeId)

/-- Translated from `merge_impl!` (plain variant): `if rhs.is_some() then
lhs = rhs`. -/
def mergeOpt {α : Type} (lhs rhs : Option α) : Option α :=
  if rhs.isSome then rhs else lhs

/-- Translated from `merge_impl!` (vec variant), exactly as written in the
source: `if rhs.is_empty() then lhs = rhs.clone()` — note this assigns the
entry vector only when it is EMPTY and otherwise leaves the parent vector. -/
def mergeVec {α : Type} (lhs rhs : List α) : List α :=
  if rhs.isEmpty then rhs else lhs

/-- Translated from `NodeElementBase::merge` in `struct_reg.rs` lines
153-175, field by field. -/
def NodeElementBase.merge (self rhs : NodeElementBase) : NodeElementBase where
  tooltip := mergeOpt self.tooltip rhs.tooltip
  description := mergeOpt self.description rhs.description
  display_name := mergeOpt self.display_name rhs.display_name
  visibility :=
    if rhs.visibility ≠ Visibility.Beginner then rhs.visibility
    else self.visibility
  docu_url := mergeOpt self.docu_url rhs.docu_url
  is_deprecated :=
    if rhs.is_deprecated ≠ false then rhs.is_deprecated else self.is_deprecated
  event_id := mergeOpt self.event_id rhs.event_id
  p_is_implemented := mergeOpt self.p_is_implemented rhs.p_is_implemented
  p_is_available := mergeOpt self.p_is_available rhs.p_is_available
  p_is_locked := mergeOpt self.p_is_locked rhs.p_is_locked
  p_block_polling := mergeOpt self.p_block_polling rhs.p_block_polling
  imposed_access_mode :=
    if rhs.imposed_access_mode ≠ AccessMode.RW then rhs.imposed_access_mode
    else self.imposed_access_mode
  p_errors := mergeVec self.p_errors rhs.p_errors
  p_alias := mergeOpt self.p_alias rhs.p_alias
  p_cast_alias := mergeOpt self.p_cast_alias rhs.p_cast_alias

/-- Modelled from the spec: `RegisterBase::store_invalidators` records the
reverse invalidator index entries (invalidator, node id) in the cache
builder. -/
def RegisterBase.store_invalidators
    (rb : RegisterBase) (id : NodeId) (cb : CacheBuilder) : CacheBuilder :=
  rb.p_invalidators.foldl (fun acc inv => acc ++ [(inv, id)]) cb

/-- Translated from `StructEntryNode::into_masked_int_reg` (`struct_reg.rs`
lines 119-150): merge the entry into a clone of the StructReg register
base, then build the `MaskedIntRegNode`. -/
def StructEntryNode.into_masked_int_reg
    (self : StructEntryNode) (register_base : RegisterBase)
    (endianness : Endianness) (cache_builder : CacheBuilder) :
    MaskedIntRegNode × CacheBuilder :=
  let rb0 :=
    { register_base with elem_base := register_base.elem_base.merge self.elem_base }
  let rb1 :=
    { rb0 with streamable :=
        if self.streamable ≠ false then self.streamable else rb0.streamable }
  let rb2 :=
    { rb1 with access_mode :=
        if self.access_mode ≠ AccessMode.RO then self.access_mode
        else rb1.access_mode }
  let rb3 :=
    { rb2 with cacheable :=
        if self.cacheable ≠ CachingMode.WriteThrough then self.cacheable
        else rb2.cacheable }
  let rb4 := { rb3 with polling_time := mergeOpt rb3.polling_time self.polling_time }
  let rb5 :=
    { rb4 with p_invalidators := mergeVec rb4.p_invalidators self.p_invalidators }
  let cb := rb5.store_invalidators self.attr_base.id cache_builder
  (⟨self.attr_base, rb5, self.bit_mask, self.sign, endianness, self.unit,
    self.representation, self.p_selected⟩, cb)

/-- Helper recursion for `StructRegNode.into_masked_int_regs`: maps the
entries in order while threading the cache builder, exactly as the source
iterator does. -/
def intoMaskedIntRegsAux (rb : RegisterBase) (e : Endianness) :
    CacheBuilder → List StructEntryNode → List MaskedIntRegNode × CacheBuilder
  | cb, [] => ([], cb)
  | cb, ent :: rest =>
    let r := ent.into_masked_int_reg rb e cb
    let rs := intoMaskedIntRegsAux rb e r.2 rest
    (r.1 :: rs.1, rs.2)

/-- Translated from `StructRegNode::into_masked_int_regs` (`struct_reg.rs`
lines 33-46). -/
def StructRegNode.into_masked_int_regs
    (self : StructRegNode) (cache_builder : CacheBuilder) :
    List MaskedIntRegNode × CacheBuilder :=
  intoMaskedIntRegsAux self.register_base self.endianness cache_builder self.entries

/-! ## Register-layout primitive

The `register` attribute macro of `cameleon-impl` is not among the source
files (only its declarations in `memory.rs` and its test in `register.rs`
are), so the primitive is modelled from the spec, section 4.1. -/

/-- Translated from `cameleon_impl::AccessRight` (NA | RO | WO | RW). -/
inductive AccessRight where
  | NA
  | RO
  | WO
  | RW
  deriving DecidableEq, Repr

/-- Modelled from the spec: the intersection (strictest combination) of two
access rights; NA is bottom and RW is top, RO and WO meet in NA. -/
def AccessRight.meet : AccessRight → AccessRight → AccessRight
  | AccessRight.NA, _ => AccessRight.NA
  | _, AccessRight.NA => AccessRight.NA
  | AccessRight.RW, x => x
  | x, AccessRight.RW => x
  | AccessRight.RO, AccessRight.RO => AccessRight.RO
  | AccessRight.WO, AccessRight.WO => AccessRight.WO
  | AccessRight.RO, AccessRight.WO => AccessRight.NA
  | AccessRight.WO, AccessRight.RO => AccessRight.NA

/-- Modelled from the spec: an entry initializer is an unsigned integer, a
string, or absent (zero fill). -/
inductive RegInit where
  | uint (v : Nat)
  | str (s : String)
  | zero
  deriving DecidableEq, Repr

/-- Modelled from the spec: a declared register-layout entry with a name, a
byte length, an access right, and an optional initializer. -/
structure RegEntry where
  name : String
  len : Nat
  access : AccessRight
  init : RegInit
  deriving DecidableEq, Repr

/-- Modelled from the spec: the offset of each entry is computed by
accumulating the lengths of the preceding entries from the base. -/
def entryOffsets (base : Nat) : List Nat → List Nat
  | [] => []
  | l :: ls => base :: entryOffsets (base + l) ls

/-- Modelled from the spec: the address one past the layout, obtained by
accumulating every entry length from the base. -/
def layoutEnd (base : Nat) : List Nat → Nat
  | [] => base
  | l :: ls => layoutEnd (base + l) ls

/-- Modelled from the spec: the declared size of a layout is the distance
from the base to the accumulated end. -/
def layoutSize (base : Nat) (lens : List Nat) : Nat :=
  layoutEnd base lens - base

/-- Little-endian encoding of `v` into exactly `len` bytes. -/
def encodeLE (v : Nat) : Nat → List Nat
  | 0 => []
  | len + 1 => v % 256 :: encodeLE (v / 256) len

/-- The byte values of an ASCII string literal. -/
def asciiBytes (s : String) : List Nat :=
  s.data.map (fun c => c.toNat)

/-- Modelled from the spec: pad a byte list with NUL bytes up to `len`. -/
def padTo (len : Nat) (bs : List Nat) : List Nat :=
  bs.take len ++ List.replicate (len - bs.length) 0

/-- Modelled from the spec: the preloaded bytes of one entry — integers
encoded little-endian in the entry length, strings NUL-padded to the entry
length, absent initializers zero-filled. -/
def RegEntry.bytes (e : RegEntry) : List Nat :=
  match e.init with
  | RegInit.uint v => encodeLE v e.len
  | RegInit.str s => padTo e.len (asciiBytes s)
  | RegInit.zero => List.replicate e.len 0

/-- Modelled from the spec: the flat preloaded byte buffer of a layout. -/
def fragmentOf (entries : List RegEntry) : List Nat :=
  entries.foldr (fun e acc => e.bytes ++ acc) []

/-- Modelled from the spec: the protection map, a partition of the layout
into half-open ranges tagged with their access right. -/
def protectionRanges (base : Nat) : List RegEntry → List (Nat × Nat × AccessRight)
  | [] => []
  | e :: es => (base, base + e.len, e.access) :: protectionRanges (base + e.len) es

/-- Whether the half-open range `[s, e)` intersects `[rs, re)`. -/
def rangesIntersect (rs re s e : Nat) : Bool :=
  max rs s < min re e

/-- Modelled from the spec: `access_right_with_range(r)` returns the
strictest access right among the ranges intersecting `r`, and NA when `r`
is empty or out of bounds. -/
def access_right_with_range
    (size : Nat) (ranges : List (Nat × Nat × AccessRight)) (s e : Nat) :
    AccessRight :=
  if e ≤ s ∨ size < e then AccessRight.NA
  else
    ((ranges.filter (fun r => rangesIntersect r.1 r.2.1 s e)).map
      (fun r => r.2.2)).foldl AccessRight.meet AccessRight.RW

/-- Little-endian decoding of `len` bytes of `frag` starting at `off`. -/
def readLE (frag : List Nat) (off len : Nat) : Nat :=
  ((frag.drop off).take len).foldr (fun b acc => b + 256 * acc) 0

/-- The offset of the entry named `n`, if declared. -/
def offsetOf (base : Nat) (entries : List RegEntry) (n : String) : Option Nat :=
  ((entries.zip (entryOffsets base (entries.map RegEntry.len))).find?
    (fun p => p.1.name == n)).map (fun p => p.2)

/-! ### The declared layouts -/

/-- Translated from `memory.rs`: `DEVICE_CAPABILITY = 0b110111100001001`. -/
def DEVICE_CAPABILITY : Nat := 0b110111100001001

/-- Translated from `memory.rs`: `SBRM_ADDRESS = 0xffff`. -/
def SBRM_ADDRESS : Nat := 0xffff

/-- Translated from `memory.rs`: the ABRM register layout declared for the
USB3 emulator memory (base 0, little-endian), entry by entry. -/
def abrmEntries : List RegEntry :=
  [⟨"GenCpVersionMinor", 2, AccessRight.RO, RegInit.uint 1⟩,
   ⟨"GenCpVersionMajor", 2, AccessRight.RO, RegInit.uint 1⟩,
   ⟨"ManufacturerName", 64, AccessRight.RO, RegInit.str "cameleon\x00"⟩,
   ⟨"ModelName", 64, AccessRight.RO, RegInit.str "cameleon model\x00"⟩,
   ⟨"FamilyName", 64, AccessRight.RO, RegInit.str "cameleon family\x00"⟩,
   ⟨"DeviceVersion", 64, AccessRight.RO, RegInit.str "none\x00"⟩,
   ⟨"ManufacturerInfo", 64, AccessRight.RO, RegInit.str "none\x00"⟩,
   ⟨"SerialNumber", 64, AccessRight.RO, RegInit.zero⟩,
   ⟨"UserDefinedName", 64, AccessRight.RW, RegInit.zero⟩,
   ⟨"DeviceCapability", 8, AccessRight.RO, RegInit.uint DEVICE_CAPABILITY⟩,
   ⟨"MaximumDeviceResponseTime", 4, AccessRight.RO, RegInit.uint 100⟩,
   ⟨"ManifestTableAddress", 8, AccessRight.RO, RegInit.zero⟩,
   ⟨"SBRMAddress", 8, AccessRight.RO, RegInit.uint SBRM_ADDRESS⟩,
   ⟨"DeviceConfiguration", 8, AccessRight.RO, RegInit.zero⟩,
   ⟨"HeartbeatTimeout", 4, AccessRight.NA, RegInit.zero⟩,
   ⟨"MessageChannelId", 4, AccessRight.NA, RegInit.zero⟩,
   ⟨"Timestamp", 8, AccessRight.RO, RegInit.zero⟩,
   ⟨"TimestampLatch", 4, AccessRight.WO, RegInit.zero⟩,
   ⟨"TimestampIncrement", 8, AccessRight.RO, RegInit.uint 1000⟩,
   ⟨"AccessPrivilege", 4, AccessRight.NA, RegInit.zero⟩,
   ⟨"ProtocolEndianess", 4, AccessRight.RO, RegInit.uint 0xFFFFFFFF⟩,
   ⟨"ImplementationEndianess", 4, AccessRight.NA, RegInit.zero⟩,
   ⟨"DeviceSoftwareInterfaceVersion", 64, AccessRight.RO, RegInit.str "1.0.0"⟩]

/-- The declared size of the emulator ABRM layout (base 0). -/
def abrmSize : Nat := layoutSize 0 (abrmEntries.map RegEntry.len)

/-- Translated from `cameleon-impl/tests/macros/register.rs`: the test ABRM
layout (default base 0, little-endian, `SBRM_ADDRESS = 0x1000`). -/
def testAbrmEntries : List RegEntry :=
  [⟨"GenCpVersionMinor", 2, AccessRight.RO, RegInit.uint 321⟩,
   ⟨"GenCpVersionMajor", 2, AccessRight.RO, RegInit.zero⟩,
   ⟨"ManufacturerName", 64, AccessRight.RW, RegInit.str "Cameleon\x00"⟩,
   ⟨"SBRMAddress", 8, AccessRight.RO, RegInit.uint 0x1000⟩]

/-- The declared size of the test ABRM layout. -/
def testAbrmSize : Nat := layoutSize 0 (testAbrmEntries.map RegEntry.len)

/-! ## The engine error kinds and the Device boundary (`lib.rs`) -/

/-- Translated from the `GenApiError` enum in `src/genapi/src/lib.rs` lines
89-116: the names of its variants, in declaration order. -/
def genApiErrorKindNames : List String :=
  ["Device", "AccessDenied", "InvalidNode", "InvalidData",
   "ChunkDataMissing", "InvalidBuffer"]

/-- Modelled from the spec: the outcome of evaluating a node, where a
re-entrant evaluation is detected via the in-flight set and fuel exhaustion
is kept distinct from cycle detection. -/
inductive EvalErr where
  | cycleDetected
  | fuelExhausted
  deriving DecidableEq, Repr

/-- Modelled from the spec: node evaluation with a set of in-flight node
ids; re-entering a node already in flight fails with `cycleDetected`,
otherwise every node the formula references is evaluated with the current
node added to the in-flight set. `dep` gives the node ids referenced by a
node formula. -/
def evalNode (dep : NodeId → List NodeId) :
    Nat → List NodeId → NodeId → Except EvalErr Unit
  | 0, _, _ => Except.error EvalErr.fuelExhausted
  | fuel + 1, inflight, n =>
    if n ∈ inflight then Except.error EvalErr.cycleDetected
    else
      (dep n).foldlM (fun _ m => evalNode dep fuel (n :: inflight) m) ()

/-- The S3 scenario dependency map: Converter A references B and B
references A. -/
def cycleDep : NodeId → List NodeId
  | "A" => ["B"]
  | "B" => ["A"]
  | _ => []

/-- Translated from the `Device` trait in `src/genapi/src/lib.rs` lines
66-72, as explicit state passing: `read_mem` fills the caller buffer and
`write_mem` commits the data, either may fail with the device error type. -/
structure Device (σ ε : Type) where
  read_mem : σ → Nat → List Nat → Except ε (σ × List Nat)
  write_mem : σ → Nat → List Nat → Except ε σ

/-- Translated from the blanket `impl<T> Device for &mut T` in `lib.rs`
lines 74-87: each method dereferences and forwards to `T` unchanged. -/
def Device.mutRef {σ ε : Type} (d : Device σ ε) : Device σ ε where
  read_mem s address buf := d.read_mem s address buf
  write_mem s address data := d.write_mem s address data

/-! ## The StructReg parse front end (`struct_reg.rs` lines 48-78) -/

/-- A simplified XML element: a tag name and its attribute list. -/
structure XmlNode where
  tag_name : String
  attributes : List (String × String)
  deriving DecidableEq, Repr

/-- Translated from `xml::Node::attribute_of`: look the attribute name up
in the element attribute list. -/
def XmlNode.attribute_of (n : XmlNode) (name : String) : Option String :=
  (n.attributes.find? (fun a => a.1 == name)).map (fun a => a.2)

/-- Translated from `parser/elem_name.rs`: the `Comment` attribute name. -/
def COMMENT : String := "Comment"

/-- The outcome of the comment-extraction step of `StructRegNode::parse`:
`Parse::parse` returns `Self` with no error channel, so a missing `Comment`
attribute can only panic via `unwrap` (line 59) — there is no error
variant. -/
inductive StructRegParseOutcome where
  | panicked
  | parsed (comment : String)
  deriving DecidableEq, Repr

/-- Translated from `StructRegNode::parse` line 59:
`node.attribute_of(COMMENT).unwrap().into()` — `none` panics, `some c`
proceeds with comment `c`. -/
def structRegParseComment (node : XmlNode) : StructRegParseOutcome :=
  match node.attribute_of COMMENT with
  | none => StructRegParseOutcome.panicked
  | some c => StructRegParseOutcome.parsed c

/-! ## The S2 sample StructReg (test XML of `struct_reg.rs`) -/

/-- The register base of the sample StructReg: tooltip set, address
`0x10000`, length 4, port `Device`, every other attribute at its default. -/
def sampleRegisterBase : RegisterBase where
  elem_base := { NodeElementBase.default with tooltip := some "Struct Reg ToolTip" }
  address := 0x10000
  reg_length := 4
  p_port := "Device"
  access_mode := AccessMode.RO
  cacheable := CachingMode.WriteThrough
  polling_time := none
  streamable := false
  p_invalidators := []

/-- The sample `StructEntry0`: every attribute explicit (access RW, imposed
RO, two invalidators, write-around caching, signed bits 1..10). -/
def sampleEntry0 : StructEntryNode where
  attr_base := ⟨"StructEntry0"⟩
  elem_base :=
    { NodeElementBase.default with
        tooltip := some "StructEntry0 ToolTip"
        imposed_access_mode := AccessMode.RO }
  p_invalidators := ["Invalidator0", "Invalidator1"]
  access_mode := AccessMode.RW
  cacheable := CachingMode.WriteAround
  polling_time := some 1000
  streamable := true
  bit_mask := BitMask.Range 10 1
  sign := Sign.Signed
  unit := some "Hz"
  representation := IntegerRepresentation.Logarithmic
  p_selected := ["Selected0", "Selected1"]

/-- The sample `StructEntry1`: only a single-bit mask, everything else at
its default. -/
def sampleEntry1 : StructEntryNode where
  attr_base := ⟨"StructEntry1"⟩
  elem_base := NodeElementBase.default
  p_invalidators := []
  access_mode := AccessMode.RO
  cacheable := CachingMode.WriteThrough
  polling_time := none
  streamable := false
  bit_mask := BitMask.SingleBit 24
  sign := Sign.Unsigned
  unit := none
  representation := IntegerRepresentation.PureNumber
  p_selected := []

/-- The sample StructReg of the S2 scenario, as parsed from the test XML in
`struct_reg.rs`. -/
def sampleStructReg : StructRegNode where
  comment := "Struct Reg Comment"
  register_base := sampleRegisterBase
  endianness := Endianness.BE
  entries := [sampleEntry0, sampleEntry1]

/-- Claim C1 (code evaluation at the failing input): the parent StructReg
register base carrying invalidators and errors. -/
def c1ParentRB : RegisterBase :=
  { sampleRegisterBase with
      p_invalidators := ["Invalidator0"],
      elem_base :=
        { sampleRegisterBase.elem_base with p_errors := ["Err0"] } }

/-- Claim C1: a StructEntry with empty vector attributes. -/
def c1EmptyVecEntry : StructEntryNode := sampleEntry1

/-- Claim C1: a StructEntry with non-empty vector attributes. -/
def c1NonEmptyVecEntry : StructEntryNode :=
  { sampleEntry1 with
      attr_base := ⟨"StructEntry2"⟩,
      p_invalidators := ["EntryInv"],
      elem_base := { sampleEntry1.elem_base with p_errors := ["EntryErr"] } }

/-- A concrete trivial device over unit state, used to instantiate the
blanket-implementation theorem. -/
def unitDevice : Device Unit Unit where
  read_mem s _ buf := Except.ok (s, buf)
  write_mem s _ _ := Except.ok s

/-! ## Helper lemmas -/

theorem layoutEnd_eq (lens : List Nat) :
    ∀ base : Nat, layoutEnd base lens = base + lens.sum := by
  induction lens with
  | nil => intro base; simp [layoutEnd]
  | cons l ls ih =>
    intro base
    simp [layoutEnd, ih (base + l), List.sum_cons]
    omega

theorem entryOffsets_getElem (lens : List Nat) :
    ∀ (base i : Nat), i < lens.length →
      (entryOffsets base lens)[i]? = some (base + (lens.take i).sum) := by
  induction lens with
  | nil => intro base i h; simp at h
  | cons l ls ih =>
    intro base i h
    cases i with
    | zero => simp [entryOffsets]
    | succ j =>
      have hj : j < ls.length := by simpa using h
      simp only [entryOffsets, List.getElem?_cons_succ, List.take_succ_cons,
        List.sum_cons]
      rw [ih (base + l) j hj]
      congr 1
      omega

theorem mergeOpt_of_isSome {α : Type} (l r : Option α) (h : r.isSome = true) :
    mergeOpt l r = r := by
  simp [mergeOpt, h]

theorem mergeOpt_of_none {α : Type} (l : Option α) :
    mergeOpt l (none : Option α) = l := by
  simp [mergeOpt]

theorem into_masked_int_reg_shared (ent : StructEntryNode) (rb : RegisterBase)
    (e : Endianness) (cb : CacheBuilder) :
    ((ent.into_masked_int_reg rb e cb).1).register_base.address = rb.address ∧
    ((ent.into_masked_int_reg rb e cb).1).register_base.reg_length = rb.reg_length ∧
    ((ent.into_masked_int_reg rb e cb).1).register_base.p_port = rb.p_port ∧
    ((ent.into_masked_int_reg rb e cb).1).endianness = e ∧
    ((ent.into_masked_int_reg rb e cb).1).attr_base = ent.attr_base := by
  simp [StructEntryNode.into_masked_int_reg]

theorem intoMaskedIntRegsAux_spec (rb : RegisterBase) (e : Endianness)
    (ents : List StructEntryNode) :
    ∀ cb : CacheBuilder,
      (intoMaskedIntRegsAux rb e cb ents).1.length = ents.length ∧
      (intoMaskedIntRegsAux rb e cb ents).1.map (fun r => r.attr_base.id) =
        ents.map (fun ent => ent.attr_base.id) ∧
      ∀ r ∈ (intoMaskedIntRegsAux rb e cb ents).1,
        r.register_base.address = rb.address ∧
        r.register_base.reg_length = rb.reg_length ∧
        r.register_base.p_port = rb.p_port ∧
        r.endianness = e := by
  induction ents with
  | nil => intro cb; simp [intoMaskedIntRegsAux]
  | cons ent rest ih =>
    intro cb
    obtain ⟨hlen, hids, hall⟩ :=
      ih (ent.into_masked_int_reg rb e cb).2
    obtain ⟨ha, hl, hp, he, hattr⟩ := into_masked_int_reg_shared ent rb e cb
    refine ⟨?_, ?_, ?_⟩
    · simp [intoMaskedIntRegsAux, hlen]
    · simp [intoMaskedIntRegsAux, hids, hattr]
    · intro r hr
      simp only [intoMaskedIntRegsAux, List.mem_cons] at hr
      rcases hr with hr | hr
      · subst hr; exact ⟨ha, hl, hp, he⟩
      · exact hall r hr

/-! ## Claim theorems -/

/-- Claim C1: the claim states that an empty entry vector inherits the
StructReg vector and a non-empty entry vector replaces it. Evaluating the
code (`merge_impl!` vec variant) at both inputs shows the opposite: with an
empty entry vector the parent vectors `["Invalidator0"]` and `["Err0"]`
come out cleared to `[]`, and with non-empty entry vectors `["EntryInv"]`
and `["EntryErr"]` the parent vectors survive and the entry vectors are
discarded. -/
theorem c1_vec_merge_code_eval :
    c1ParentRB.p_invalidators = ["Invalidator0"] ∧
    c1ParentRB.elem_base.p_errors = ["Err0"] ∧
    c1EmptyVecEntry.p_invalidators = [] ∧
    c1EmptyVecEntry.elem_base.p_errors = [] ∧
    ((c1EmptyVecEntry.into_masked_int_reg c1ParentRB Endianness.LE
        []).1).register_base.p_invalidators = [] ∧
    ((c1EmptyVecEntry.into_masked_int_reg c1ParentRB Endianness.LE
        []).1).register_base.elem_base.p_errors = [] ∧
    c1NonEmptyVecEntry.p_invalidators = ["EntryInv"] ∧
    c1NonEmptyVecEntry.elem_base.p_errors = ["EntryErr"] ∧
    ((c1NonEmptyVecEntry.into_masked_int_reg c1ParentRB Endianness.LE
        []).1).register_base.p_invalidators = ["Invalidator0"] ∧
    ((c1NonEmptyVecEntry.into_masked_int_reg c1ParentRB Endianness.LE
        []).1).register_base.elem_base.p_errors = ["Err0"] := by
  decide

/-- Claim C2 (counterexample): the declared ABRM layout size is not 634
bytes. -/
theorem c2_abrm_size_not_634 :
    (abrmSize == 634) = false ∧ abrmSize = 592 := by
  decide

/-- Claim C2 (amended): the ABRM register layout declared for the USB3
emulator memory has total size 592 bytes, equal to the sum of the declared
entry lengths. -/
theorem c2_abrm_size_592 :
    abrmSize = 592 ∧ (abrmEntries.map RegEntry.len).sum = 592 ∧
    abrmSize = (abrmEntries.map RegEntry.len).sum := by
  decide

/-- Claim C3 (counterexample): `CycleDetected` is not among the engine
error kinds declared by `GenApiError` in `lib.rs`. -/
theorem c3_cycle_detected_not_an_error_kind :
    genApiErrorKindNames.contains "CycleDetected" = false := by
  decide

/-- Claim C3 (amended): evaluating the Converter A of the S3 cycle (A
references B, B references A) fails by re-entrancy detection whatever fuel
remains, but the failure cannot be a `CycleDetected` engine error kind —
the engine error kinds of `GenApiError` are exactly the six declared ones
and `CycleDetected` is not among them. -/
theorem c3_cycle_eval_fails :
    (∀ k : Nat,
      evalNode cycleDep (k + 3) [] "A" = Except.error EvalErr.cycleDetected) ∧
    genApiErrorKindNames.contains "CycleDetected" = false ∧
    genApiErrorKindNames =
      ["Device", "AccessDenied", "InvalidNode", "InvalidData",
       "ChunkDataMissing", "InvalidBuffer"] := by
  refine ⟨fun k => rfl, by decide, by decide⟩

/-- Claim C8: in the emulator ABRM fragment, bytes `[0,2)` read
little-endian as 1 (GenCpVersionMinor is encoded LE as `[1, 0]`), the 8
bytes at SBRMAddress (offset 472) read as `0xFFFF`, the UserDefinedName
range `[388, 452)` has access right RW, the ManufacturerName string
initializer occupies its 64-byte slot NUL-padded, and the fragment length
equals the declared size. -/
theorem c8_abrm_reads :
    readLE (fragmentOf abrmEntries) 0 2 = 1 ∧
    ((fragmentOf abrmEntries).drop 0).take 2 = [1, 0] ∧
    offsetOf 0 abrmEntries "SBRMAddress" = some 472 ∧
    readLE (fragmentOf abrmEntries) 472 8 = 0xffff ∧
    offsetOf 0 abrmEntries "UserDefinedName" = some 388 ∧
    access_right_with_range abrmSize (protectionRanges 0 abrmEntries) 388 452 =
      AccessRight.RW ∧
    ((fragmentOf abrmEntries).drop 4).take 64 =
      padTo 64 (asciiBytes "cameleon\x00") ∧
    (fragmentOf abrmEntries).length = abrmSize := by
  decide

/-- Claim C4: for every StructEntry expansion the resulting MaskedIntReg
access mode is the entry access mode when that is not RO and the StructReg
access mode otherwise, and the imposed access mode is the entry imposed
access mode when that is not RW and the StructReg imposed access mode
otherwise; in the S2 sample, reg0 gets access RW with imposed RO and reg1
gets access RO with imposed RW. -/
theorem c4_access_mode_merge :
    (∀ (rb : RegisterBase) (ent : StructEntryNode) (e : Endianness)
        (cb : CacheBuilder),
      (ent.access_mode ≠ AccessMode.RO →
        ((ent.into_masked_int_reg rb e cb).1).register_base.access_mode =
          ent.access_mode) ∧
      (ent.access_mode = AccessMode.RO →
        ((ent.into_masked_int_reg rb e cb).1).register_base.access_mode =
          rb.access_mode) ∧
      (ent.elem_base.imposed_access_mode ≠ AccessMode.RW →
        ((ent.into_masked_int_reg rb e
            cb).1).register_base.elem_base.imposed_access_mode =
          ent.elem_base.imposed_access_mode) ∧
      (ent.elem_base.imposed_access_mode = AccessMode.RW →
        ((ent.into_masked_int_reg rb e
            cb).1).register_base.elem_base.imposed_access_mode =
          rb.elem_base.imposed_access_mode)) ∧
    ((sampleStructReg.into_masked_int_regs []).1.map
      (fun r =>
        (r.register_base.access_mode,
         r.register_base.elem_base.imposed_access_mode)) =
      [(AccessMode.RW, AccessMode.RO), (AccessMode.RO, AccessMode.RW)]) := by
  constructor
  · intro rb ent e cb
    refine ⟨fun h => ?_, fun h => ?_, fun h => ?_, fun h => ?_⟩ <;>
      simp [StructEntryNode.into_masked_int_reg, NodeElementBase.merge, h]
  · decide

/-- Claim C4 witness: the general merge rule applied to the S2 entries. -/
theorem c4_access_mode_merge_witness :
    ((sampleEntry0.into_masked_int_reg sampleRegisterBase Endianness.BE
        []).1).register_base.access_mode = sampleEntry0.access_mode ∧
    ((sampleEntry1.into_masked_int_reg sampleRegisterBase Endianness.BE
        []).1).register_base.access_mode = sampleRegisterBase.access_mode ∧
    ((sampleEntry0.into_masked_int_reg sampleRegisterBase Endianness.BE
        []).1).register_base.elem_base.imposed_access_mode =
      sampleEntry0.elem_base.imposed_access_mode ∧
    ((sampleEntry1.into_masked_int_reg sampleRegisterBase Endianness.BE
        []).1).register_base.elem_base.imposed_access_mode =
      sampleRegisterBase.elem_base.imposed_access_mode :=
  ⟨(c4_access_mode_merge.1 sampleRegisterBase sampleEntry0 Endianness.BE
      []).1 (by decide),
   (c4_access_mode_merge.1 sampleRegisterBase sampleEntry1 Endianness.BE
      []).2.1 (by decide),
   (c4_access_mode_merge.1 sampleRegisterBase sampleEntry0 Endianness.BE
      []).2.2.1 (by decide),
   (c4_access_mode_merge.1 sampleRegisterBase sampleEntry1 Endianness.BE
      []).2.2.2 (by decide)⟩

/-- Claim C5: for each optional attribute of a StructEntry, an attribute set
on the entry overrides the StructReg value in the produced MaskedIntReg,
and an absent attribute inherits the StructReg value — stated for tooltip,
description, display_name, docu_url, event_id, the predicate node-ids
(p_is_implemented, p_is_available, p_is_locked, p_block_polling, p_alias,
p_cast_alias) and polling_time. -/
theorem c5_optional_attr_merge
    (rb : RegisterBase) (ent : StructEntryNode) (e : Endianness)
    (cb : CacheBuilder) :
    let r := (ent.into_masked_int_reg rb e cb).1
    (ent.elem_base.tooltip.isSome = true →
      r.register_base.elem_base.tooltip = ent.elem_base.tooltip) ∧
    (ent.elem_base.tooltip = none →
      r.register_base.elem_base.tooltip = rb.elem_base.tooltip) ∧
    (ent.elem_base.description.isSome = true →
      r.register_base.elem_base.description = ent.elem_base.description) ∧
    (ent.elem_base.description = none →
      r.register_base.elem_base.description = rb.elem_base.description) ∧
    (ent.elem_base.display_name.isSome = true →
      r.register_base.elem_base.display_name = ent.elem_base.display_name) ∧
    (ent.elem_base.display_name = none →
      r.register_base.elem_base.display_name = rb.elem_base.display_name) ∧
    (ent.elem_base.docu_url.isSome = true →
      r.register_base.elem_base.docu_url = ent.elem_base.docu_url) ∧
    (ent.elem_base.docu_url = none →
      r.register_base.elem_base.docu_url = rb.elem_base.docu_url) ∧
    (ent.elem_base.event_id.isSome = true →
      r.register_base.elem_base.event_id = ent.elem_base.event_id) ∧
    (ent.elem_base.event_id = none →
      r.register_base.elem_base.event_id = rb.elem_base.event_id) ∧
    (ent.elem_base.p_is_implemented.isSome = true →
      r.register_base.elem_base.p_is_implemented =
        ent.elem_base.p_is_implemented) ∧
    (ent.elem_base.p_is_implemented = none →
      r.register_base.elem_base.p_is_implemented =
        rb.elem_base.p_is_implemented) ∧
    (ent.elem_base.p_is_available.isSome = true →
      r.register_base.elem_base.p_is_available =
        ent.elem_base.p_is_available) ∧
    (ent.elem_base.p_is_available = none →
      r.register_base.elem_base.p_is_available =
        rb.elem_base.p_is_available) ∧
    (ent.elem_base.p_is_locked.isSome = true →
      r.register_base.elem_base.p_is_locked = ent.elem_base.p_is_locked) ∧
    (ent.elem_base.p_is_locked = none →
      r.register_base.elem_base.p_is_locked = rb.elem_base.p_is_locked) ∧
    (ent.elem_base.p_block_polling.isSome = true →
      r.register_base.elem_base.p_block_polling =
        ent.elem_base.p_block_polling) ∧
    (ent.elem_base.p_block_polling = none →
      r.register_base.elem_base.p_block_polling =
        rb.elem_base.p_block_polling) ∧
    (ent.elem_base.p_alias.isSome = true →
      r.register_base.elem_base.p_alias = ent.elem_base.p_alias) ∧
    (ent.elem_base.p_alias = none →
      r.register_base.elem_base.p_alias = rb.elem_base.p_alias) ∧
    (ent.elem_base.p_cast_alias.isSome = true →
      r.register_base.elem_base.p_cast_alias = ent.elem_base.p_cast_alias) ∧
    (ent.elem_base.p_cast_alias = none →
      r.register_base.elem_base.p_cast_alias = rb.elem_base.p_cast_alias) ∧
    (ent.polling_time.isSome = true →
      r.register_base.polling_time = ent.polling_time) ∧
    (ent.polling_time = none →
      r.register_base.polling_time = rb.polling_time) := by
  refine ⟨fun h => ?_, fun h => ?_, fun h => ?_, fun h => ?_, fun h => ?_,
    fun h => ?_, fun h => ?_, fun h => ?_, fun h => ?_, fun h => ?_,
    fun h => ?_, fun h => ?_, fun h => ?_, fun h => ?_, fun h => ?_,
    fun h => ?_, fun h => ?_, fun h => ?_, fun h => ?_, fun h => ?_,
    fun h => ?_, fun h => ?_, fun h => ?_, fun h => ?_⟩ <;>
    simp [StructEntryNode.into_masked_int_reg, NodeElementBase.merge,
      mergeOpt, h]

/-- Claim C5 witness: override and inheritance at the S2 entries — the
tooltip set on `StructEntry0` overrides, the tooltip absent on
`StructEntry1` inherits, and the absent polling time of `StructEntry1`
inherits the StructReg value. -/
theorem c5_optional_attr_merge_witness :
    ((sampleEntry0.into_masked_int_reg sampleRegisterBase Endianness.BE
        []).1).register_base.elem_base.tooltip = sampleEntry0.elem_base.tooltip ∧
    ((sampleEntry1.into_masked_int_reg sampleRegisterBase Endianness.BE
        []).1).register_base.elem_base.tooltip =
      sampleRegisterBase.elem_base.tooltip ∧
    ((sampleEntry1.into_masked_int_reg sampleRegisterBase Endianness.BE
        []).1).register_base.polling_time = sampleRegisterBase.polling_time :=
  ⟨(c5_optional_attr_merge sampleRegisterBase sampleEntry0 Endianness.BE
      []).1 (by decide),
   (c5_optional_attr_merge sampleRegisterBase sampleEntry1 Endianness.BE
      []).2.1 (by decide),
   (c5_optional_attr_merge sampleRegisterBase sampleEntry1 Endianness.BE
      []).2.2.2.2.2.2.2.2.2.2.2.2.2.2.2.2.2.2.2.2.2.2.2 (by decide)⟩

/-- Claim C6: expanding a StructReg produces exactly one MaskedIntReg per
StructEntry (same count, same node ids in order), and every produced
MaskedIntReg shares the StructReg address, length, port and endianness. -/
theorem c6_struct_reg_expansion (s : StructRegNode) (cb : CacheBuilder) :
    ((s.into_masked_int_regs cb).1).length = s.entries.length ∧
    ((s.into_masked_int_regs cb).1).map (fun r => r.attr_base.id) =
      s.entries.map (fun ent => ent.attr_base.id) ∧
    ∀ r ∈ (s.into_masked_int_regs cb).1,
      r.register_base.address = s.register_base.address ∧
      r.register_base.reg_length = s.register_base.reg_length ∧
      r.register_base.p_port = s.register_base.p_port ∧
      r.endianness = s.endianness :=
  intoMaskedIntRegsAux_spec s.register_base s.endianness s.entries cb

/-- Claim C6 witness: the expansion of the S2 sample StructReg yields one
node per entry with matching ids, and its first produced MaskedIntReg
shares the StructReg address, length, port and endianness. -/
theorem c6_struct_reg_expansion_witness :
    ((sampleStructReg.into_masked_int_regs []).1).length =
      sampleStructReg.entries.length ∧
    ((sampleStructReg.into_masked_int_regs []).1).map
        (fun r => r.attr_base.id) =
      sampleStructReg.entries.map (fun ent => ent.attr_base.id) ∧
    (((sampleEntry0.into_masked_int_reg sampleRegisterBase Endianness.BE
        []).1).register_base.address = sampleStructReg.register_base.address ∧
      ((sampleEntry0.into_masked_int_reg sampleRegisterBase Endianness.BE
        []).1).register_base.reg_length =
        sampleStructReg.register_base.reg_length ∧
      ((sampleEntry0.into_masked_int_reg sampleRegisterBase Endianness.BE
        []).1).register_base.p_port = sampleStructReg.register_base.p_port ∧
      ((sampleEntry0.into_masked_int_reg sampleRegisterBase Endianness.BE
        []).1).endianness = sampleStructReg.endianness) :=
  ⟨(c6_struct_reg_expansion sampleStructReg []).1,
   (c6_struct_reg_expansion sampleStructReg []).2.1,
   (c6_struct_reg_expansion sampleStructReg []).2.2
     ((sampleEntry0.into_masked_int_reg sampleRegisterBase Endianness.BE
       []).1) (by decide)⟩

/-- Claim C7: in a register layout each entry offset is the base plus the
sum of the preceding entry lengths, the total size is the sum of the entry
lengths, and in the test layout (2+2+64+8 bytes) the size is 76, the
GenCpVersionMajor offset is 2, the RO and RW regions report RO and RW, and
an empty or out-of-bounds range reports NA. -/
theorem c7_register_layout :
    (∀ (base : Nat) (lens : List Nat) (i : Nat), i < lens.length →
      (entryOffsets base lens)[i]? = some (base + (lens.take i).sum)) ∧
    (∀ (base : Nat) (lens : List Nat), layoutSize base lens = lens.sum) ∧
    testAbrmSize = 76 ∧
    offsetOf 0 testAbrmEntries "GenCpVersionMajor" = some 2 ∧
    access_right_with_range testAbrmSize (protectionRanges 0 testAbrmEntries)
      0 2 = AccessRight.RO ∧
    access_right_with_range testAbrmSize (protectionRanges 0 testAbrmEntries)
      4 68 = AccessRight.RW ∧
    (∀ s e : Nat, e ≤ s ∨ testAbrmSize < e →
      access_right_with_range testAbrmSize (protectionRanges 0 testAbrmEntries)
        s e = AccessRight.NA) := by
  refine ⟨fun base lens i h => entryOffsets_getElem lens base i h,
    fun base lens => ?_, by decide, by decide, by decide, by decide,
    fun s e h => ?_⟩
  · simp [layoutSize, layoutEnd_eq]
  · simp [access_right_with_range, h]

/-- Claim C7 witness: the offset law at the fourth test entry, and NA on an
empty range and on an out-of-bounds range. -/
theorem c7_register_layout_witness :
    (entryOffsets 0 [2, 2, 64, 8])[3]? = some 68 ∧
    access_right_with_range testAbrmSize (protectionRanges 0 testAbrmEntries)
      5 3 = AccessRight.NA ∧
    access_right_with_range testAbrmSize (protectionRanges 0 testAbrmEntries)
      70 90 = AccessRight.NA :=
  ⟨c7_register_layout.1 0 [2, 2, 64, 8] 3 (by decide),
   c7_register_layout.2.2.2.2.2.2 5 3 (Or.inl (by decide)),
   c7_register_layout.2.2.2.2.2.2 70 90 (Or.inr (by decide))⟩

/-- Claim C9: the blanket `Device` implementation for a mutable reference
forwards `read_mem` and `write_mem` to the underlying device unchanged, so
both return exactly the same result (same error or same state and buffer)
as calling the device directly. -/
theorem c9_mut_ref_device_forwarding :
    ∀ (σ ε : Type) (d : Device σ ε) (s : σ) (address : Nat)
      (buf data : List Nat),
      (Device.mutRef d).read_mem s address buf = d.read_mem s address buf ∧
      (Device.mutRef d).write_mem s address data =
        d.write_mem s address data :=
  fun _ _ _ _ _ _ _ => ⟨rfl, rfl⟩

/-- Claim C9 witness: the forwarding equations at a concrete device, state,
address and buffers. -/
theorem c9_mut_ref_device_forwarding_witness :
    (Device.mutRef unitDevice).read_mem () 0 [1, 2] =
      unitDevice.read_mem () 0 [1, 2] ∧
    (Device.mutRef unitDevice).write_mem () 0 [3] =
      unitDevice.write_mem () 0 [3] :=
  c9_mut_ref_device_forwarding Unit Unit unitDevice () 0 [1, 2] [3]

/-- Claim C10: `StructRegNode::parse` unwraps the `Comment` attribute — an
element without a `Comment` attribute panics (there is no parser error
value to return), and an element carrying a `Comment` attribute does not
reach that panic. -/
theorem c10_struct_reg_comment_panic :
    (∀ n : XmlNode, n.attribute_of COMMENT = none →
      structRegParseComment n = StructRegParseOutcome.panicked) ∧
    (∀ (n : XmlNode) (c : String), n.attribute_of COMMENT = some c →
      structRegParseComment n = StructRegParseOutcome.parsed c) := by
  constructor
  · intro n h; simp [structRegParseComment, h]
  · intro n c h; simp [structRegParseComment, h]

/-- Claim C10 witness: a StructReg element without attributes panics on the
missing `Comment`, and the sample element with `Comment` parses it. -/
theorem c10_struct_reg_comment_panic_witness :
    structRegParseComment ⟨"StructReg", []⟩ =
      StructRegParseOutcome.panicked ∧
    structRegParseComment
        ⟨"StructReg", [("Comment", "Struct Reg Comment")]⟩ =
      StructRegParseOutcome.parsed "Struct Reg Comment" :=
  ⟨c10_struct_reg_comment_panic.1 ⟨"StructReg", []⟩ (by decide),
   c10_struct_reg_comment_panic.2 ⟨"StructReg",
     [("Comment", "Struct Reg Comment")]⟩ "Struct Reg Comment" (by decide)⟩
